import Mathlib

/-!
Shallow embedding of `src/main.py` (a FastAPI service that builds a STRIDE
threat-modeling prompt, sends it with an uploaded image to a generative
model, and returns the model's JSON output or a raw-text / error fallback),
together with theorems settling the specification claims about it.

Python strings are modeled as Lean `String`; Python `bytes` as `List Nat`;
`None`-able values as `Option`; a raised exception as the `exn` constructor
of `PyResult` carrying `str(e)`.
-/

/-! ## Python string primitives used by the source -/

/-- Python whitespace test for `str.strip` (ASCII whitespace characters;
the source only ever strips language selectors such as `"en"`/`"pt"`). -/
def pyIsSpace (c : Char) : Bool :=
  c = ' ' || c = '\t' || c = '\n' || c = '\x0d' || c = '\x0b' || c = '\x0c'

/-- Python `str.strip()`: drop leading and trailing whitespace. -/
def pyStrip (s : String) : String :=
  ⟨((s.toList.dropWhile pyIsSpace).reverse.dropWhile pyIsSpace).reverse⟩

/-- Python `str.lower()` (ASCII case folding, which agrees with Python on
the language selectors the source compares). -/
def pyLower (s : String) : String :=
  ⟨s.toList.map Char.toLower⟩

/-- Python `str.startswith(p)`. -/
def pyStartsWith (s p : String) : Bool :=
  p.toList.isPrefixOf s.toList

/-- Python's `s or d` for strings: `d` when `s` is falsy (empty), else `s`. -/
def pyOrStr (s d : String) : String :=
  if s = "" then d else s

/-- Python's `o or d` for an optional string: `d` when `o` is `None` or
empty, else the string. -/
def pyOrOptStr (o : Option String) (d : String) : String :=
  match o with
  | none => d
  | some s => pyOrStr s d

/-! ## Prompt templates (`PT_TEMPLATE`, `EN_TEMPLATE`) after `.format`

The source holds each template as one literal with `{field}` placeholders
and `{{`/`}}` brace escapes, and instantiates it with `str.format`.  The
embedding represents the result of `.format` directly: the literal segments
between placeholders (with `{{`/`}}` already unescaped to `{`/`}`)
concatenated with the field values.  Segment texts are byte-for-byte the
template texts of `src/main.py` lines 34–58 and 60–84. -/

def pt_seg0 : String :=
  "Aja como um especialista em cibersegurança com mais de 20 anos de experiência,\nusando a metodologia STRIDE para produzir um modelo de ameaças para a aplicação e a ARQUITETURA DA IMAGEM ANEXA.\n\nRegras de saída:\n- Responda SOMENTE com JSON válido (sem markdown, sem texto extra).\n- Use exatamente as chaves: \"threat_model\" (array de objetos) e \"improvement_suggestions\" (array de strings).\n- Em \"Threat Type\", use exatamente: \"Spoofing\", \"Tampering\", \"Repudiation\", \"Information Disclosure\", \"Denial of Service\", \"Elevation of Privilege\".\n- Liste 3–4 ameaças por categoria STRIDE, se aplicável, com cenários plausíveis no contexto fornecido.\n\nContexto:\nTIPO_DE_APLICACAO: "

def pt_seg1 : String := "\nMETODOS_DE_AUTENTICACAO: "

def pt_seg2 : String := "\nEXPOSTA_NA_INTERNET: "

def pt_seg3 : String := "\nDADOS_SENSIVEIS: "

def pt_seg4 : String := "\nRESUMO_DESCRICAO: "

def pt_seg5 : String :=
  "\n\nSaída esperada (SOMENTE JSON):\n\x7b\n  \"threat_model\": [\n    \x7b \"Threat Type\": \"Spoofing\", \"Scenario\": \"…\", \"Potential Impact\": \"…\" \x7d\n  ],\n  \"improvement_suggestions\": [\n    \"…\"\n  ]\n\x7d"

def en_seg0 : String :=
  "Act as a cybersecurity expert with 20+ years of experience,\nusing the STRIDE methodology to produce a threat model for the application and for the ARCHITECTURE IN THE ATTACHED IMAGE.\n\nOutput rules:\n- Reply ONLY with valid JSON (no markdown, no extra text).\n- Use exactly the keys: \"threat_model\" (array of objects) and \"improvement_suggestions\" (array of strings).\n- For \"Threat Type\", use exactly: \"Spoofing\", \"Tampering\", \"Repudiation\", \"Information Disclosure\", \"Denial of Service\", \"Elevation of Privilege\".\n- List 3–4 threats per STRIDE category, if applicable, with plausible scenarios in the provided context.\n\nContext:\nAPPLICATION_TYPE: "

def en_seg1 : String := "\nAUTHENTICATION_METHODS: "

def en_seg2 : String := "\nINTERNET_EXPOSED: "

def en_seg3 : String := "\nSENSITIVE_DATA: "

def en_seg4 : String := "\nSUMMARY_DESCRIPTION: "

def en_seg5 : String :=
  "\n\nExpected output (JSON ONLY):\n\x7b\n  \"threat_model\": [\n    \x7b \"Threat Type\": \"Spoofing\", \"Scenario\": \"…\", \"Potential Impact\": \"…\" \x7d\n  ],\n  \"improvement_suggestions\": [\n    \"…\"\n  ]\n\x7d"

/-- `PT_TEMPLATE.format(tipo_aplicacao=..., ...)` of `src/main.py`. -/
def format_PT (tipo_aplicacao autenticacao acesso_internet dados_sensiveis descricao_aplicacao : String) : String :=
  pt_seg0 ++ tipo_aplicacao ++ pt_seg1 ++ autenticacao ++ pt_seg2 ++ acesso_internet ++
    pt_seg3 ++ dados_sensiveis ++ pt_seg4 ++ descricao_aplicacao ++ pt_seg5

/-- `EN_TEMPLATE.format(tipo_aplicacao=..., ...)` of `src/main.py`. -/
def format_EN (tipo_aplicacao autenticacao acesso_internet dados_sensiveis descricao_aplicacao : String) : String :=
  en_seg0 ++ tipo_aplicacao ++ en_seg1 ++ autenticacao ++ en_seg2 ++ acesso_internet ++
    en_seg3 ++ dados_sensiveis ++ en_seg4 ++ descricao_aplicacao ++ en_seg5

/-- `create_threat_model_prompt` of `src/main.py` lines 86–106:
`lang = (prompt_language or "pt").strip().lower()`;
the English template is used when `lang.startswith("en")`, else the
Portuguese one, and the chosen template is formatted with the fields. -/
def create_threat_model_prompt (tipo_aplicacao autenticacao acesso_internet dados_sensiveis descricao_aplicacao : String) (prompt_language : String := "pt") : String :=
  let lang := pyLower (pyStrip (pyOrStr prompt_language "pt"))
  if pyStartsWith lang "en" then
    format_EN tipo_aplicacao autenticacao acesso_internet dados_sensiveis descricao_aplicacao
  else
    format_PT tipo_aplicacao autenticacao acesso_internet dados_sensiveis descricao_aplicacao

/-! ## JSON values and `json.loads`

The handler calls the Python standard library's `json.loads` on the model's
response text.  The embedding implements that strict JSON parser directly
(RFC 8259 grammar plus Python's accepted `NaN` / `Infinity` / `-Infinity`
constants; duplicate object keys resolved last-wins as a Python `dict`
does).  Numeric literals are kept as their source text, since the handler
never computes with them — it only passes the parsed value through. -/

inductive Json where
  | null
  | bool (b : Bool)
  | num (lit : String)
  | str (s : String)
  | arr (elems : List Json)
  | obj (members : List (String × Json))

/-- JSON insignificant whitespace (space, tab, line feed, carriage return). -/
def jsonIsWs (c : Char) : Bool :=
  c = ' ' || c = '\t' || c = '\n' || c = '\x0d'

def jsonSkipWs : List Char → List Char
  | [] => []
  | c :: cs => if jsonIsWs c then jsonSkipWs cs else c :: cs

/-- Drop an expected literal prefix (e.g. the `ull` of `null`). -/
def stripLit : List Char → List Char → Option (List Char)
  | [], cs => some cs
  | _, [] => none
  | p :: ps, c :: cs => if c = p then stripLit ps cs else none

def hexDigitVal (c : Char) : Option Nat :=
  if '0' ≤ c ∧ c ≤ '9' then some (c.toNat - '0'.toNat)
  else if 'a' ≤ c ∧ c ≤ 'f' then some (c.toNat - 'a'.toNat + 10)
  else if 'A' ≤ c ∧ c ≤ 'F' then some (c.toNat - 'A'.toNat + 10)
  else none

/-- Single-character JSON string escapes. -/
def escChar (e : Char) : Option Char :=
  if e = '"' then some '"'
  else if e = '\\' then some '\\'
  else if e = '/' then some '/'
  else if e = 'b' then some '\x08'
  else if e = 'f' then some '\x0c'
  else if e = 'n' then some '\n'
  else if e = 'r' then some '\x0d'
  else if e = 't' then some '\t'
  else none

/-- Parse the body of a JSON string after the opening quote, returning the
decoded characters and the input past the closing quote.  Control
characters are rejected (Python's `strict=True`).  A `\uXXXX` escape
becomes the character with that code point (an unpaired surrogate code
point, which Python would keep, falls outside Lean `Char` and degrades to
`Char.ofNat`'s default; no claim exercises surrogates). -/
def parseStringChars : List Char → Option (List Char × List Char)
  | [] => none
  | c :: cs =>
    if c = '"' then some ([], cs)
    else if c = '\\' then
      match cs with
      | [] => none
      | e :: cs₁ =>
        if e = 'u' then
          match cs₁ with
          | h₁ :: h₂ :: h₃ :: h₄ :: cs₂ =>
            match hexDigitVal h₁, hexDigitVal h₂, hexDigitVal h₃, hexDigitVal h₄ with
            | some a, some b, some c₃, some d =>
              match parseStringChars cs₂ with
              | some (tail, rest) => some (Char.ofNat (((a * 16 + b) * 16 + c₃) * 16 + d) :: tail, rest)
              | none => none
            | _, _, _, _ => none
          | _ => none
        else
          match escChar e with
          | some ch =>
            match parseStringChars cs₁ with
            | some (tail, rest) => some (ch :: tail, rest)
            | none => none
          | none => none
    else if c.toNat < 32 then none
    else
      match parseStringChars cs with
      | some (tail, rest) => some (c :: tail, rest)
      | none => none

def takeDigits : List Char → List Char × List Char
  | [] => ([], [])
  | c :: cs =>
    if c.isDigit then
      let (ds, rest) := takeDigits cs
      (c :: ds, rest)
    else ([], c :: cs)

/-- Integer part of a JSON number: `0`, or a nonzero digit followed by
digits (leading zeros are not absorbed, as in Python's number regex). -/
def parseIntPart : List Char → Option (List Char × List Char)
  | [] => none
  | c :: cs =>
    if c = '0' then some (['0'], cs)
    else if c.isDigit then
      let (ds, rest) := takeDigits cs
      some (c :: ds, rest)
    else none

/-- Optional fraction part `.digits`; absorbed only when well-formed,
otherwise left in the remainder (as a regex optional group would). -/
def parseFracPart (cs : List Char) : List Char × List Char :=
  match cs with
  | '.' :: cs₁ =>
    match takeDigits cs₁ with
    | ([], _) => ([], cs)
    | (ds, rest) => ('.' :: ds, rest)
  | _ => ([], cs)

/-- Optional exponent part `[eE][+-]?digits`, absorbed only when well-formed. -/
def parseExpPart (cs : List Char) : List Char × List Char :=
  match cs with
  | e :: cs₁ =>
    if e = 'e' || e = 'E' then
      match cs₁ with
      | s :: cs₂ =>
        if s = '+' || s = '-' then
          match takeDigits cs₂ with
          | ([], _) => ([], cs)
          | (ds, rest) => (e :: s :: ds, rest)
        else
          match takeDigits cs₁ with
          | ([], _) => ([], cs)
          | (ds, rest) => (e :: ds, rest)
      | [] => ([], cs)
    else ([], cs)
  | [] => ([], cs)

/-- Parse a JSON number starting at the input (which begins with `-` or a
digit), returning its literal text. -/
def parseNumber (cs : List Char) : Option (Json × List Char) :=
  match cs with
  | '-' :: cs₁ =>
    match parseIntPart cs₁ with
    | some (ip, r₁) =>
      let (fp, r₂) := parseFracPart r₁
      let (ep, r₃) := parseExpPart r₂
      some (Json.num ⟨'-' :: (ip ++ fp ++ ep)⟩, r₃)
    | none => none
  | _ =>
    match parseIntPart cs with
    | some (ip, r₁) =>
      let (fp, r₂) := parseFracPart r₁
      let (ep, r₃) := parseExpPart r₂
      some (Json.num ⟨ip ++ fp ++ ep⟩, r₃)
    | none => none

/-- Python `dict` insertion: an existing key keeps its position but takes
the new value; a new key is appended. -/
def dictInsert : List (String × Json) → String → Json → List (String × Json)
  | [], k, v => [(k, v)]
  | (k₁, v₁) :: rest, k, v =>
    if k₁ = k then (k₁, v) :: rest else (k₁, v₁) :: dictInsert rest k v

/-- Build a Python-`dict`-like member list (duplicate keys last-wins). -/
def dictOfPairs (ps : List (String × Json)) : List (String × Json) :=
  ps.foldl (fun acc kv => dictInsert acc kv.1 kv.2) []

/-- Comma-separated array items up to the closing `]`; `rec` parses one
value, `n` bounds the number of items. -/
def jsonParseItems (rec : List Char → Option (Json × List Char)) : Nat → List Char → Option (List Json × List Char)
  | 0, _ => none
  | n + 1, cs =>
    match rec cs with
    | none => none
    | some (v, cs₁) =>
      match jsonSkipWs cs₁ with
      | ',' :: cs₂ =>
        match jsonParseItems rec n cs₂ with
        | some (vs, cs₃) => some (v :: vs, cs₃)
        | none => none
      | ']' :: cs₂ => some ([v], cs₂)
      | _ => none

/-- Comma-separated `"key": value` object members up to the closing brace. -/
def jsonParseMembers (rec : List Char → Option (Json × List Char)) : Nat → List Char → Option (List (String × Json) × List Char)
  | 0, _ => none
  | n + 1, cs =>
    match jsonSkipWs cs with
    | '"' :: cs₁ =>
      match parseStringChars cs₁ with
      | none => none
      | some (key, cs₂) =>
        match jsonSkipWs cs₂ with
        | ':' :: cs₃ =>
          match rec cs₃ with
          | none => none
          | some (v, cs₄) =>
            match jsonSkipWs cs₄ with
            | ',' :: cs₅ =>
              match jsonParseMembers rec n cs₅ with
              | some (ms, cs₆) => some ((⟨key⟩, v) :: ms, cs₆)
              | none => none
            | '\x7d' :: cs₅ => some ([(⟨key⟩, v)], cs₅)
            | _ => none
        | _ => none
    | _ => none

/-- One level of JSON value parsing; `rec` handles nested values. -/
def parseValStep (rec : List Char → Option (Json × List Char)) (cs : List Char) : Option (Json × List Char) :=
  match jsonSkipWs cs with
  | [] => none
  | c :: cs₁ =>
    if c = 'n' then
      match stripLit ['u', 'l', 'l'] cs₁ with
      | some rest => some (Json.null, rest)
      | none => none
    else if c = 't' then
      match stripLit ['r', 'u', 'e'] cs₁ with
      | some rest => some (Json.bool true, rest)
      | none => none
    else if c = 'f' then
      match stripLit ['a', 'l', 's', 'e'] cs₁ with
      | some rest => some (Json.bool false, rest)
      | none => none
    else if c = 'N' then
      match stripLit ['a', 'N'] cs₁ with
      | some rest => some (Json.num "NaN", rest)
      | none => none
    else if c = 'I' then
      match stripLit ['n', 'f', 'i', 'n', 'i', 't', 'y'] cs₁ with
      | some rest => some (Json.num "Infinity", rest)
      | none => none
    else if c = '"' then
      match parseStringChars cs₁ with
      | some (content, rest) => some (Json.str ⟨content⟩, rest)
      | none => none
    else if c = '[' then
      match jsonSkipWs cs₁ with
      | ']' :: rest => some (Json.arr [], rest)
      | _ =>
        match jsonParseItems rec (cs₁.length + 1) cs₁ with
        | some (vs, rest) => some (Json.arr vs, rest)
        | none => none
    else if c = '\x7b' then
      match jsonSkipWs cs₁ with
      | '\x7d' :: rest => some (Json.obj [], rest)
      | _ =>
        match jsonParseMembers rec (cs₁.length + 1) cs₁ with
        | some (ms, rest) => some (Json.obj (dictOfPairs ms), rest)
        | none => none
    else if c = '-' then
      match stripLit ['I', 'n', 'f', 'i', 'n', 'i', 't', 'y'] cs₁ with
      | some rest => some (Json.num "-Infinity", rest)
      | none => parseNumber (c :: cs₁)
    else if c.isDigit then parseNumber (c :: cs₁)
    else none

/-- Fueled JSON value parser (`Nat.rec` so that it unfolds by reduction);
the fuel bounds the nesting depth. -/
def parseVal (fuel : Nat) : List Char → Option (Json × List Char) :=
  Nat.rec (fun _ => none) (fun _ ih => parseValStep ih) fuel

/-- Python `json.loads` restricted to its success/failure observable:
`some v` when the whole input is one valid JSON document parsing to `v`,
`none` when `json.loads` would raise `JSONDecodeError`. -/
def json_loads (s : String) : Option Json :=
  match parseVal (s.toList.length + 1) s.toList with
  | some (v, rest) =>
    match jsonSkipWs rest with
    | [] => some v
    | _ => none
  | none => none

example : json_loads "" = none := rfl

example : json_loads "I cannot comply" = none := rfl

example : json_loads "  \x7b\"a\": [1, true, null, \"x\"]\x7d " =
    some (Json.obj [("a", Json.arr [Json.num "1", Json.bool true, Json.null, Json.str "x"])]) := rfl

example : json_loads "\x7b\"a\":1,\"a\":2\x7d" = some (Json.obj [("a", Json.num "2")]) := rfl

example : json_loads "[1" = none := rfl

example : json_loads "01" = none := rfl

example : json_loads "1." = none := rfl

example : json_loads "-Infinity" = some (Json.num "-Infinity") := rfl

example : json_loads "1.5e-3" = some (Json.num "1.5e-3") := rfl

example : json_loads "\"a\\u0041b\"" = some (Json.str "aAb") := rfl

example : json_loads "[]" = some (Json.arr []) := rfl

example : create_threat_model_prompt "t" "a" "i" "d" "de" "en" = format_EN "t" "a" "i" "d" "de" := rfl

example : create_threat_model_prompt "t" "a" "i" "d" "de" " EN " = format_EN "t" "a" "i" "d" "de" := rfl

example : create_threat_model_prompt "t" "a" "i" "d" "de" "" = format_PT "t" "a" "i" "d" "de" := rfl

example : create_threat_model_prompt "t" "a" "i" "d" "de" = format_PT "t" "a" "i" "d" "de" := rfl

/-! ## The request handler `analyze_threats`

A Python value that may have been produced normally or by a raised
exception is a `PyResult`; the `exn` constructor carries `str(e)`, which is
all the handler's `except` clause uses. -/

inductive PyResult (α : Type) where
  | ok (a : α)
  | exn (msg : String)

/-- The FastAPI `UploadFile` as the handler observes it: its declared
`content_type` (`None`-able) and the outcome of `await imagem.read()`
(bytes, or a raised exception).  The source's `isinstance(image_bytes,
bytearray)` conversion is the identity on the byte-sequence model. -/
structure UploadFile where
  content_type : Option String
  read : PyResult (List Nat)

/-- The Vertex model response as the handler observes it: its `.text`
attribute (`None`-able). -/
structure GenResponse where
  text : Option String

/-- One element of the `contents` list sent to the model: a text part, or
`Part.from_data(mime_type=..., data=...)`. -/
inductive ContentPart where
  | text (s : String)
  | image (mime_type : String) (data : List Nat)

/-- The `GenerationConfig` of `src/main.py` lines 150–154.  The float
literals `0.7` and `0.95` are only ever constructed and passed through,
never computed with, so they are carried as the rationals they denote. -/
structure GenerationConfig where
  temperature : ℚ
  top_p : ℚ
  max_output_tokens : ℕ

/-- The process-global `model.generate_content`: an external collaborator
mapping the contents list and generation config to a response or a raised
exception. -/
def ModelClient : Type :=
  List ContentPart → GenerationConfig → PyResult GenResponse

/-- The handler's validated form parameters (`src/main.py` lines 110–116),
after FastAPI has established the required ones are present and filled
`prompt_language`'s default. -/
structure Request where
  imagem : UploadFile
  tipo_aplicacao : String
  autenticacao : String
  acesso_internet : String
  dados_sensiveis : String
  descricao_aplicacao : String
  prompt_language : String

/-- A `JSONResponse(content=..., status_code=...)`. -/
structure JSONResponse where
  content : Json
  status_code : Nat

/-- The fixed third element of `contents` (`src/main.py` line 146). -/
def trailing_instruction : String :=
  "Analyze the image and the text above and return ONLY the JSON described in the instructions."

/-- The `cfg` of `src/main.py` lines 150–154: temperature 0.7, top_p 0.95,
max_output_tokens 1500. -/
def generation_config : GenerationConfig :=
  ⟨7 / 10, 95 / 100, 1500⟩

/-- `analyze_threats` of `src/main.py` lines 108–166, the handler of
`POST /analisar_ameacas`, given the process-global model client.  The two
steps that can raise — the upload read and the model call — carry their
outcome in the `UploadFile` and `ModelClient` models; every other step of
the `try` body is pure string/list construction that cannot raise, so the
`except Exception` of lines 165–166 appears as the two `exn` branches. -/
def analyze_threats (generate_content : ModelClient) (req : Request) : JSONResponse :=
  let prompt := create_threat_model_prompt req.tipo_aplicacao req.autenticacao
    req.acesso_internet req.dados_sensiveis req.descricao_aplicacao req.prompt_language
  match req.imagem.read with
  | .exn m => ⟨Json.obj [("error", Json.str m)], 500⟩
  | .ok image_bytes =>
    let mime_type := pyOrOptStr req.imagem.content_type "image/png"
    let image_part := ContentPart.image mime_type image_bytes
    let contents := [ContentPart.text prompt, image_part, ContentPart.text trailing_instruction]
    match generate_content contents generation_config with
    | .exn m => ⟨Json.obj [("error", Json.str m)], 500⟩
    | .ok response =>
      let text := response.text.getD ""
      match json_loads text with
      | some parsed => ⟨parsed, 200⟩
      | none => ⟨Json.obj [("raw_text", Json.str text)], 200⟩

/-- The handler's tail after the model call (`src/main.py` lines 155–166):
take the call's outcome, parse `response.text or ""` strictly, and shape
the response. -/
def interpretModelResult (r : PyResult GenResponse) : JSONResponse :=
  match r with
  | .exn m => ⟨Json.obj [("error", Json.str m)], 500⟩
  | .ok response =>
    let text := response.text.getD ""
    match json_loads text with
    | some parsed => ⟨parsed, 200⟩
    | none => ⟨Json.obj [("raw_text", Json.str text)], 200⟩

/-! ## The HTTP route surface

What reaches the handler body is FastAPI's doing: the framework rejects a
multipart form that lacks a required `File(...)`/`Form(...)` parameter
before the handler runs.  That validation layer is not code under `src/`,
so it is modelled from the spec. -/

/-- A raw multipart form for the Portuguese-field-named route: each field
either present or absent. -/
structure RawForm where
  imagem : Option UploadFile
  tipo_aplicacao : Option String
  autenticacao : Option String
  acesso_internet : Option String
  dados_sensiveis : Option String
  descricao_aplicacao : Option String
  prompt_language : Option String

/-- A raw multipart form for the English-field-named route variant. -/
structure RawFormEN where
  image : Option UploadFile
  application_type : Option String
  authentication_methods : Option String
  internet_exposed : Option String
  sensitive_data : Option String
  application_description : Option String
  prompt_language : Option String

/-- Outcome of routing a request: the handler's response, or the
framework's validation-error response (FastAPI's 422, produced without
entering the handler). -/
inductive RouteResult where
  | handled (r : JSONResponse)
  | validationError

/-- `POST /analisar_ameacas`: the route of `src/main.py` lines 108–117.
The handler body and the `prompt_language` default `"pt"` are from the
source; the guard is modelled from the spec: FastAPI fails a request
missing any required `Form(...)`/`File(...)` parameter with a
framework-level validation error, never invoking the handler. -/
def route_analisar_ameacas (generate_content : ModelClient) (form : RawForm) : RouteResult :=
  match form.imagem, form.tipo_aplicacao, form.autenticacao, form.acesso_internet,
      form.dados_sensiveis, form.descricao_aplicacao with
  | some img, some t, some a, some i, some d, some de =>
    .handled (analyze_threats generate_content
      ⟨img, t, a, i, d, de, form.prompt_language.getD "pt"⟩)
  | _, _, _, _, _, _ => .validationError

/-- Modelled from the spec: the second route variant `POST /analyze_threats`
with English field names, which the spec reports as present in the
repository but which is not among the files under `src/`.  Per spec §4.1
and §9 it is a near-duplicate of the `src/` handler whose `prompt_language`
default is the other language, English. -/
def route_analyze_threats (generate_content : ModelClient) (form : RawFormEN) : RouteResult :=
  match form.image, form.application_type, form.authentication_methods, form.internet_exposed,
      form.sensitive_data, form.application_description with
  | some img, some t, some a, some i, some d, some de =>
    .handled (analyze_threats generate_content
      ⟨img, t, a, i, d, de, form.prompt_language.getD "en"⟩)
  | _, _, _, _, _, _ => .validationError

/-- The field-name translation between the two route surfaces: the same
data presented under the Portuguese names. -/
def toPTForm (f : RawFormEN) : RawForm :=
  ⟨f.image, f.application_type, f.authentication_methods, f.internet_exposed,
    f.sensitive_data, f.application_description, f.prompt_language⟩

/-! ## Substring occurrence -/

/-- `sub` occurs verbatim inside `s`. -/
def ContainsSubstr (s sub : String) : Prop :=
  ∃ l r : List Char, l ++ sub.toList ++ r = s.toList

theorem string_toList_append (s t : String) : (s ++ t).toList = s.toList ++ t.toList :=
  rfl

theorem containsSubstr_refl (s : String) : ContainsSubstr s s :=
  ⟨[], [], by simp⟩

theorem containsSubstr_append_left {s sub : String} (t : String) (h : ContainsSubstr s sub) :
    ContainsSubstr (s ++ t) sub := by
  obtain ⟨l, r, hl⟩ := h
  exact ⟨l, r ++ t.toList, by rw [string_toList_append, ← hl]; simp⟩

theorem containsSubstr_append_right {t sub : String} (s : String) (h : ContainsSubstr t sub) :
    ContainsSubstr (s ++ t) sub := by
  obtain ⟨l, r, hl⟩ := h
  exact ⟨s.toList ++ l, r, by rw [string_toList_append, ← hl]; simp⟩

/-! ## Observations on the response body used by the claims -/

/-- The six STRIDE category literals fixed by both templates. -/
def stride_categories : List String :=
  ["Spoofing", "Tampering", "Repudiation", "Information Disclosure",
    "Denial of Service", "Elevation of Privilege"]

/-- Look a key up in an object member list (first match). -/
def lookupMember : List (String × Json) → String → Option Json
  | [], _ => none
  | (k, v) :: rest, key => if k = key then some v else lookupMember rest key

/-- All `"Threat Type"` string values present in the `threat_model` array
of a response body. -/
def threatTypeStrings (j : Json) : List String :=
  match j with
  | Json.obj ms =>
    match lookupMember ms "threat_model" with
    | some (Json.arr entries) =>
      entries.filterMap fun e =>
        match e with
        | Json.obj ems =>
          match lookupMember ems "Threat Type" with
          | some (Json.str s) => some s
          | _ => none
        | _ => none
    | _ => []
  | _ => []

/-- The `raw_text` string of a handled response whose body is an object
with one, if any. -/
def handledRawText (rr : RouteResult) : Option String :=
  match rr with
  | .handled r =>
    match r.content with
    | Json.obj ms =>
      match lookupMember ms "raw_text" with
      | some (Json.str s) => some s
      | _ => none
    | _ => none
  | .validationError => none

/-! ## Concrete fixtures used by counterexamples and witnesses -/

/-- A one-byte stand-in for an uploaded image that reads successfully. -/
def sample_upload : UploadFile :=
  ⟨some "image/png", .ok [137, 80, 78, 71]⟩

/-- The example request of spec §8. -/
def sample_request : Request :=
  ⟨sample_upload, "web app", "OAuth2", "yes", "PII", "internal HR portal", "en"⟩

/-- A model client that always succeeds with a fixed response text. -/
def const_client (t : String) : ModelClient :=
  fun _ _ => .ok ⟨some t⟩

/-- A model client that echoes the prompt part back as its response text. -/
def echo_client : ModelClient :=
  fun contents _ =>
    match contents with
    | ContentPart.text p :: _ => .ok ⟨some p⟩
    | _ => .ok ⟨some ""⟩

/-- A model client that always raises. -/
def raising_client (m : String) : ModelClient :=
  fun _ _ => .exn m

/-- The spec §8 example model output. -/
def sample_model_text : String :=
  "\x7b\"threat_model\":[\x7b\"Threat Type\":\"Spoofing\",\"Scenario\":\"s\",\"Potential Impact\":\"i\"\x7d],\"improvement_suggestions\":[\"use MFA\"]\x7d"

/-- The JSON value `sample_model_text` parses to. -/
def sample_model_json : Json :=
  Json.obj [("threat_model", Json.arr [Json.obj [("Threat Type", Json.str "Spoofing"),
    ("Scenario", Json.str "s"), ("Potential Impact", Json.str "i")]]),
    ("improvement_suggestions", Json.arr [Json.str "use MFA"])]

example : json_loads sample_model_text = some sample_model_json := rfl

/-- A syntactically valid model output whose `"Threat Type"` is not a
STRIDE category. -/
def bogus_model_text : String :=
  "\x7b\"threat_model\": [\x7b\"Threat Type\": \"Bogus\", \"Scenario\": \"s\", \"Potential Impact\": \"i\"\x7d], \"improvement_suggestions\": []\x7d"

/-! ## Claims about the prompt builder -/

/-- C1 counterexample: the claim reads the selection rule as a
case-insensitive `"en"`-prefix match on the selector as given, with every
other selector value choosing the Portuguese template.  The selector
`" en"` is not such a match (its lowercase form starts with a space), yet
the builder selects and formats the English template, because the code
strips the selector before matching. -/
theorem C1_counterexample :
    pyStartsWith (pyLower " en") "en" = false ∧
    create_threat_model_prompt "t" "a" "i" "d" "de" " en" ≠ format_PT "t" "a" "i" "d" "de" ∧
    create_threat_model_prompt "t" "a" "i" "d" "de" " en" = format_EN "t" "a" "i" "d" "de" :=
  ⟨rfl, by decide, rfl⟩

/-- C1 (amended): the language selector is stripped of surrounding
whitespace and then case-insensitively matched by prefix `"en"`; when that
match succeeds (the selector necessarily being non-empty) the English
template is selected and formatted, and for every other value — including
the empty string and the missing value, which default to `"pt"` — the
Portuguese template is selected. -/
theorem C1_amended (t a i d de sel : String) :
    create_threat_model_prompt t a i d de sel =
      if pyStartsWith (pyLower (pyStrip sel)) "en" = true ∧ sel ≠ "" then
        format_EN t a i d de
      else format_PT t a i d de := by
  by_cases hs : sel = ""
  · subst hs
    rw [if_neg (by simp)]
    rfl
  · have h1 : pyOrStr sel "pt" = sel := if_neg hs
    simp only [create_threat_model_prompt, pyOrStr, if_neg hs]
    by_cases hc : pyStartsWith (pyLower (pyStrip sel)) "en" = true
    · rw [if_pos hc, if_pos ⟨hc, hs⟩]
    · rw [if_neg hc, if_neg fun hh => hc hh.1]

/-- C10: the builder strips leading and trailing whitespace from the
selector before matching, so every selector whose stripped, lowercased
form starts with `"en"` selects the English template, and every
whitespace-only selector selects the Portuguese template. -/
theorem C10_selector_stripped (t a i d de sel : String) :
    (pyStartsWith (pyLower (pyStrip sel)) "en" = true →
      create_threat_model_prompt t a i d de sel = format_EN t a i d de) ∧
    (sel.toList.all pyIsSpace = true →
      create_threat_model_prompt t a i d de sel = format_PT t a i d de) := by
  constructor
  · intro h
    have hs : sel ≠ "" := by
      intro he
      rw [he] at h
      exact absurd h (by decide)
    simp only [create_threat_model_prompt, pyOrStr, if_neg hs]
    rw [if_pos h]
  · intro h
    by_cases hs : sel = ""
    · subst hs; rfl
    · have hnil : sel.toList.dropWhile pyIsSpace = [] := by
        rw [List.dropWhile_eq_nil_iff]
        exact fun x hx => List.all_eq_true.mp h x hx
      have hstrip : pyStrip sel = "" := by
        unfold pyStrip
        rw [hnil]
        rfl
      simp only [create_threat_model_prompt, pyOrStr, if_neg hs]
      rw [hstrip]
      rfl

/-- The English template's opening literal segment starts with the exact
phrase `"Act as a cybersecurity expert"` (29 characters). -/
theorem en_seg0_decomp : en_seg0 = "Act as a cybersecurity expert" ++ ⟨en_seg0.toList.drop 29⟩ :=
  rfl

/-- C6: for every request with `prompt_language="en"`, the built prompt
contains the literal substring `"Act as a cybersecurity expert"` and each
of the five metadata field values verbatim. -/
theorem C6_en_prompt_contains (t a i d de : String) :
    ContainsSubstr (create_threat_model_prompt t a i d de "en") "Act as a cybersecurity expert" ∧
    ContainsSubstr (create_threat_model_prompt t a i d de "en") t ∧
    ContainsSubstr (create_threat_model_prompt t a i d de "en") a ∧
    ContainsSubstr (create_threat_model_prompt t a i d de "en") i ∧
    ContainsSubstr (create_threat_model_prompt t a i d de "en") d ∧
    ContainsSubstr (create_threat_model_prompt t a i d de "en") de := by
  have hp : create_threat_model_prompt t a i d de "en" =
      en_seg0 ++ t ++ en_seg1 ++ a ++ en_seg2 ++ i ++ en_seg3 ++ d ++ en_seg4 ++ de ++ en_seg5 :=
    rfl
  rw [hp]
  refine ⟨?_, ?_, ?_, ?_, ?_, ?_⟩
  · iterate 10 apply containsSubstr_append_left
    rw [en_seg0_decomp]
    exact containsSubstr_append_left _ (containsSubstr_refl _)
  · iterate 9 apply containsSubstr_append_left
    exact containsSubstr_append_right _ (containsSubstr_refl _)
  · iterate 7 apply containsSubstr_append_left
    exact containsSubstr_append_right _ (containsSubstr_refl _)
  · iterate 5 apply containsSubstr_append_left
    exact containsSubstr_append_right _ (containsSubstr_refl _)
  · iterate 3 apply containsSubstr_append_left
    exact containsSubstr_append_right _ (containsSubstr_refl _)
  · apply containsSubstr_append_left
    exact containsSubstr_append_right _ (containsSubstr_refl _)

/-- C10 witness: `"  EN  "` selects the English template and `"   "`
selects the Portuguese one. -/
theorem C10_witness :
    create_threat_model_prompt "t" "a" "i" "d" "de" "  EN  " = format_EN "t" "a" "i" "d" "de" ∧
    create_threat_model_prompt "t" "a" "i" "d" "de" "   " = format_PT "t" "a" "i" "d" "de" :=
  ⟨(C10_selector_stripped "t" "a" "i" "d" "de" "  EN  ").1 (by decide),
    (C10_selector_stripped "t" "a" "i" "d" "de" "   ").2 (by decide)⟩

/-! ## Claims about the handler's response shaping -/

/-- On a successful upload read, the handler is the interpretation of one
model call made with exactly three content parts — the built prompt, the
image bytes tagged with the (defaulted) MIME type, and the fixed trailing
instruction — and the fixed generation config. -/
theorem analyze_threats_read_ok (g : ModelClient) (ct : Option String) (bs : List Nat)
    (t a i d de pl : String) :
    analyze_threats g ⟨⟨ct, .ok bs⟩, t, a, i, d, de, pl⟩ =
      interpretModelResult (g
        [ContentPart.text (create_threat_model_prompt t a i d de pl),
          ContentPart.image (pyOrOptStr ct "image/png") bs,
          ContentPart.text trailing_instruction]
        generation_config) := by
  cases hg : g
      [ContentPart.text (create_threat_model_prompt t a i d de pl),
        ContentPart.image (pyOrOptStr ct "image/png") bs,
        ContentPart.text trailing_instruction]
      generation_config with
  | ok r => simp only [analyze_threats, interpretModelResult, hg]
  | exn m => simp only [analyze_threats, interpretModelResult, hg]

/-- C2: when the model's response text is valid JSON parsing to `v`, the
handler returns HTTP 200 with body exactly `v` — the parsed structure is
passed through unchanged, so serializing the body again reproduces it. -/
theorem C2_json_passthrough (ct : Option String) (bs : List Nat)
    (t a i d de pl text : String) (v : Json) (hparse : json_loads text = some v) :
    analyze_threats (const_client text) ⟨⟨ct, .ok bs⟩, t, a, i, d, de, pl⟩ = ⟨v, 200⟩ := by
  simp only [analyze_threats, const_client, Option.getD, hparse]

/-- C2 witness: the spec §8 end-to-end example — the stubbed model output
parses, and the handler returns exactly that object with status 200. -/
theorem C2_witness :
    json_loads sample_model_text = some sample_model_json ∧
    analyze_threats (const_client sample_model_text) sample_request = ⟨sample_model_json, 200⟩ :=
  ⟨rfl, C2_json_passthrough (some "image/png") [137, 80, 78, 71] "web app" "OAuth2" "yes"
    "PII" "internal HR portal" "en" sample_model_text sample_model_json rfl⟩

/-- C3: when the model's response text — with a missing text treated as the
empty string — is not valid JSON, the handler returns HTTP 200 with body
exactly `{"raw_text": <the original text>}`; the parse failure is not
reported as an error. -/
theorem C3_raw_text_fallback (ct : Option String) (bs : List Nat)
    (t a i d de pl : String) (o : Option String) (hparse : json_loads (o.getD "") = none) :
    analyze_threats (fun _ _ => .ok ⟨o⟩) ⟨⟨ct, .ok bs⟩, t, a, i, d, de, pl⟩ =
      ⟨Json.obj [("raw_text", Json.str (o.getD ""))], 200⟩ := by
  simp only [analyze_threats, hparse]

/-- C3 witness: the non-JSON reply `"I cannot comply"` comes back as
`{"raw_text": "I cannot comply"}` with status 200, and a missing response
text comes back as `{"raw_text": ""}` with status 200. -/
theorem C3_witness :
    json_loads "I cannot comply" = none ∧
    analyze_threats (const_client "I cannot comply") sample_request =
      ⟨Json.obj [("raw_text", Json.str "I cannot comply")], 200⟩ ∧
    analyze_threats (fun _ _ => .ok ⟨none⟩) sample_request =
      ⟨Json.obj [("raw_text", Json.str "")], 200⟩ :=
  ⟨rfl,
    C3_raw_text_fallback (some "image/png") [137, 80, 78, 71] "web app" "OAuth2" "yes" "PII"
      "internal HR portal" "en" (some "I cannot comply") rfl,
    C3_raw_text_fallback (some "image/png") [137, 80, 78, 71] "web app" "OAuth2" "yes" "PII"
      "internal HR portal" "en" none rfl⟩

/-- C4: an exception raised inside the handler body — at the upload read or
at the model call, the two fallible steps — is caught at the top level and
reported as HTTP 500 with body `{"error": <the exception message>}`; the
handler (a total function in this embedding) never lets it escape. -/
theorem C4_exceptions_caught (ct : Option String) (bs : List Nat)
    (t a i d de pl m : String) (g : ModelClient) :
    analyze_threats g ⟨⟨ct, .exn m⟩, t, a, i, d, de, pl⟩ =
      ⟨Json.obj [("error", Json.str m)], 500⟩ ∧
    analyze_threats (raising_client m) ⟨⟨ct, .ok bs⟩, t, a, i, d, de, pl⟩ =
      ⟨Json.obj [("error", Json.str m)], 500⟩ :=
  ⟨rfl, rfl⟩

/-- Every interpretation of a model-call outcome has one of three shapes:
a parsed JSON value with status 200, a raw-text object with status 200, or
an error object with status 500. -/
theorem interpretModelResult_shapes (x : PyResult GenResponse) :
    (∃ v text, json_loads text = some v ∧ interpretModelResult x = ⟨v, 200⟩) ∨
    (∃ text, json_loads text = none ∧
      interpretModelResult x = ⟨Json.obj [("raw_text", Json.str text)], 200⟩) ∨
    (∃ m, interpretModelResult x = ⟨Json.obj [("error", Json.str m)], 500⟩) := by
  cases x with
  | exn m => exact Or.inr (Or.inr ⟨m, rfl⟩)
  | ok r =>
    cases hparse : json_loads (r.text.getD "") with
    | some v =>
      exact Or.inl ⟨v, r.text.getD "", hparse, by simp only [interpretModelResult, hparse]⟩
    | none =>
      exact Or.inr (Or.inl ⟨r.text.getD "", hparse,
        by simp only [interpretModelResult, hparse]⟩)

/-- C5 counterexample: the claim requires every 200-body of the first shape
to draw its `"Threat Type"` values from the six STRIDE literals, but the
handler returns the parsed model output unvalidated: a model reply whose
`"Threat Type"` is `"Bogus"` comes back as a 200 response containing
`"Bogus"`, which is not a STRIDE category. -/
theorem C5_counterexample :
    (analyze_threats (const_client bogus_model_text) sample_request).status_code = 200 ∧
    threatTypeStrings (analyze_threats (const_client bogus_model_text) sample_request).content =
      ["Bogus"] ∧
    "Bogus" ∉ stride_categories :=
  ⟨rfl, rfl, by decide⟩

/-- C5 (amended): every response body is exactly one of three shapes —
a JSON value parsed from the model's text (whatever its internal shape,
with no validation of the `threat_model` structure or of `"Threat Type"`
values) with status 200, `{"raw_text": string}` with status 200, or
`{"error": string}` with status 500. -/
theorem C5_amended (g : ModelClient) (req : Request) :
    (∃ v text, json_loads text = some v ∧ analyze_threats g req = ⟨v, 200⟩) ∨
    (∃ text, json_loads text = none ∧
      analyze_threats g req = ⟨Json.obj [("raw_text", Json.str text)], 200⟩) ∨
    (∃ m, analyze_threats g req = ⟨Json.obj [("error", Json.str m)], 500⟩) := by
  obtain ⟨⟨ct, rd⟩, t, a, i, d, de, pl⟩ := req
  cases rd with
  | exn m => exact Or.inr (Or.inr ⟨m, rfl⟩)
  | ok bs =>
    rw [analyze_threats_read_ok]
    exact interpretModelResult_shapes _

/-- C7: on every request whose upload read succeeds, the handler invokes
the model with exactly three parts in order — the built prompt text, the
image bytes tagged with the MIME type defaulted to `"image/png"` when the
upload declares none, and the fixed trailing return-ONLY-the-JSON
instruction — under the fixed generation config (temperature 0.7, top_p
0.95, max_output_tokens 1500), a closed constant no request field reaches. -/
theorem C7_payload_and_config (g : ModelClient) (ct : Option String) (bs : List Nat)
    (t a i d de pl : String) :
    analyze_threats g ⟨⟨ct, .ok bs⟩, t, a, i, d, de, pl⟩ =
      interpretModelResult (g
        [ContentPart.text (create_threat_model_prompt t a i d de pl),
          ContentPart.image (pyOrOptStr ct "image/png") bs,
          ContentPart.text trailing_instruction]
        generation_config) ∧
    generation_config = ⟨7 / 10, 95 / 100, 1500⟩ ∧
    pyOrOptStr none "image/png" = "image/png" :=
  ⟨analyze_threats_read_ok g ct bs t a i d de pl, rfl, rfl⟩

/-! ## Claims about the route surface -/

/-- C8: a request missing any of the five required text fields or the
required image part fails framework validation before the handler runs:
the route result is the validation error, and it is the same whatever the
model client is — the client is observably never called. -/
theorem C8_validation_before_model (form : RawForm) (g₁ g₂ : ModelClient)
    (h : form.imagem = none ∨ form.tipo_aplicacao = none ∨ form.autenticacao = none ∨
      form.acesso_internet = none ∨ form.dados_sensiveis = none ∨
      form.descricao_aplicacao = none) :
    route_analisar_ameacas g₁ form = RouteResult.validationError ∧
    route_analisar_ameacas g₁ form = route_analisar_ameacas g₂ form := by
  obtain ⟨im, f₁, f₂, f₃, f₄, f₅, pl⟩ := form
  cases im <;> cases f₁ <;> cases f₂ <;> cases f₃ <;> cases f₄ <;> cases f₅ <;>
    simp_all [route_analisar_ameacas]

/-- A form lacking the required `tipo_aplicacao` field. -/
def missing_field_form : RawForm :=
  ⟨some sample_upload, none, some "OAuth2", some "yes", some "PII",
    some "internal HR portal", some "en"⟩

/-- C8 witness: the form missing `tipo_aplicacao` yields the validation
error under a succeeding client and equally under a raising one. -/
theorem C8_witness :
    route_analisar_ameacas (const_client sample_model_text) missing_field_form =
      RouteResult.validationError ∧
    route_analisar_ameacas (const_client sample_model_text) missing_field_form =
      route_analisar_ameacas (raising_client "boom") missing_field_form :=
  C8_validation_before_model missing_field_form (const_client sample_model_text)
    (raising_client "boom") (Or.inr (Or.inl rfl))

/-- A complete English-field-named form with `prompt_language` absent. -/
def form_en_no_lang : RawFormEN :=
  ⟨some sample_upload, some "web app", some "OAuth2", some "yes", some "PII",
    some "internal HR portal", none⟩

set_option maxRecDepth 4000 in
/-- C9 counterexample: with `prompt_language` absent, the two route
variants are not functionally identical — on the same underlying data a
prompt-echoing model client makes `/analyze_threats` answer with the
English prompt and `/analisar_ameacas` with the Portuguese one, because
the variants default the language differently. -/
theorem C9_counterexample :
    route_analyze_threats echo_client form_en_no_lang ≠
      route_analisar_ameacas echo_client (toPTForm form_en_no_lang) :=
  fun h => absurd (congrArg handledRawText h) (by decide)

/-- C9 (amended): the two POST route variants both accept the image part,
the five metadata text fields, and the optional `prompt_language` field,
and behave identically on the same data whenever `prompt_language` is
provided; they differ only in the language they default to when it is
absent (`"en"` for `/analyze_threats`, `"pt"` for `/analisar_ameacas`). -/
theorem C9_amended (g : ModelClient) (form : RawFormEN) (pl : String)
    (h : form.prompt_language = some pl) :
    route_analyze_threats g form = route_analisar_ameacas g (toPTForm form) := by
  obtain ⟨im, f₁, f₂, f₃, f₄, f₅, fpl⟩ := form
  cases h
  cases im <;> cases f₁ <;> cases f₂ <;> cases f₃ <;> cases f₄ <;> cases f₅ <;>
    simp [route_analyze_threats, route_analisar_ameacas, toPTForm]

/-- A complete English-field-named form with `prompt_language` provided. -/
def form_en_with_lang : RawFormEN :=
  ⟨some sample_upload, some "web app", some "OAuth2", some "yes", some "PII",
    some "internal HR portal", some "pt"⟩

/-- C9 witness: with `prompt_language` provided, the two route variants
agree on the same data. -/
theorem C9_witness :
    route_analyze_threats echo_client form_en_with_lang =
      route_analisar_ameacas echo_client (toPTForm form_en_with_lang) :=
  C9_amended echo_client form_en_with_lang "pt" rfl
